import Mathlib

/-!
A shallow embedding of the lido-standalone Stencil component
(src/components/lido-standalone/lido-standalone.tsx) and proofs of
properties of its resource-resolution behaviour.

The component performs two resolutions:
  * ScriptResolution (injectLidoScripts / doesFileExistSync / fallbackNpmImport):
    probe a remote script URL and either inject two script tags or fall back
    to a dynamic npm import that registers the custom elements.
  * ContentResolution (fetchXmlData): use inline XML data, or derive a URL and
    fetch the XML payload synchronously.

Network transport and the dynamic-import outcome are modelled as an
environment of oracle functions; DOM mutations, HTTP requests and console
logging are recorded as an effect trace.
-/

namespace LidoStandalone

/-- An HTTP response as seen through XMLHttpRequest: a numeric status and the
response body text. -/
structure HttpResponse where
  status : Nat
  responseText : String
deriving DecidableEq

/-- An opaque JavaScript exception value (what a throwing transport call or a
rejected dynamic import delivers). -/
structure JsError where
  msg : String
deriving DecidableEq

/-- The external environment of the component: the synchronous HEAD transport
used by doesFileExistSync, the synchronous GET transport used by fetchXmlData,
and the combined outcome of the dynamic import of lido-player/loader together
with its defineCustomElements call (the .then callback succeeds iff both do). -/
structure Env where
  head : String → Except JsError HttpResponse
  get : String → Except JsError HttpResponse
  fallbackImport : Except JsError Unit

/-- A script tag as created by injectLidoScripts: an optional type attribute,
whether the nomodule attribute is set, and the src attribute. -/
structure ScriptTag where
  typeAttr : Option String
  nomodule : Bool
  src : String
deriving DecidableEq

/-- Observable effects of a run: HTTP requests issued, script tags appended to
document.head, the dynamic fallback import being started, and console output
(log / warn / error / debug). -/
inductive Effect where
  | headRequest (url : String)
  | getRequest (url : String)
  | injectScript (tag : ScriptTag)
  | fallbackImportCall
  | logInfo (msg : String)
  | logWarn (msg : String)
  | logError (msg : String)
  | logDebug (msg : String)
deriving DecidableEq

/-- The component instance: the six props (base-url, xml-path, xml-data,
initial-index, canplay, height) and the three state fields (scriptsInjected,
localXmlData, xmlBaseUrl). xmlPath is a prop, but fetchXmlData assigns to it
when deriving the default location, so it lives in the mutable state record. -/
structure ComponentState where
  baseUrl : String
  xmlPath : Option String
  xmlData : Option String
  initialIndex : Int
  canplay : Bool
  height : String
  scriptsInjected : Bool
  localXmlData : Option String
  xmlBaseUrl : Option String
deriving DecidableEq

/-- JavaScript truthiness of an optional string: undefined and the empty
string are falsy, every other string is truthy. -/
def jsTruthy : Option String → Bool
  | none => false
  | some s => s != ""

/-- The regex replace of trailing slashes in injectLidoScripts:
s.replace with pattern slash-plus-end-anchor removes the maximal run of
trailing slash characters. -/
def stripTrailingSlashes (s : String) : String :=
  ⟨(s.data.reverse.dropWhile (fun c => c == '/')).reverse⟩

/-- Embedding of doesFileExistSync (lines 127-138): issue a synchronous HEAD
request; true iff the status is in 200..299; a thrown transport error is
caught, logged as a warning, and yields false. -/
def doesFileExistSync (env : Env) (url : String) : Bool × List Effect :=
  match env.head url with
  | Except.ok r =>
    (decide (200 ≤ r.status) && decide (r.status < 300), [Effect.headRequest url])
  | Except.error _ =>
    (false, [Effect.headRequest url, Effect.logWarn "Synchronous HEAD request failed"])

/-- Embedding of fallbackNpmImport (lines 145-157): start the dynamic import
of lido-player/loader; on success call defineCustomElements and set
scriptsInjected, on failure log an error and leave the state unchanged. -/
def fallbackNpmImport (env : Env) (s : ComponentState) : ComponentState × List Effect :=
  match env.fallbackImport with
  | Except.ok _ =>
    ({ s with scriptsInjected := true },
      [Effect.fallbackImportCall, Effect.logDebug "Lido scripts loaded via npm fallback"])
  | Except.error _ =>
    (s, [Effect.fallbackImportCall, Effect.logError "Failed to load from npm package lido-player"])

/-- Embedding of injectLidoScripts (lines 83-121): with an empty baseUrl go
straight to the fallback; if scripts were already injected do nothing;
otherwise probe the cleaned ESM URL and either append the two script tags and
set scriptsInjected, or fall back. -/
def injectLidoScripts (env : Env) (s : ComponentState) : ComponentState × List Effect :=
  if s.baseUrl = "" then
    let res := fallbackNpmImport env s
    (res.1, Effect.logInfo "injectLidoScripts called" ::
      Effect.logWarn "No baseUrl provided, using npm fallback" :: res.2)
  else if s.scriptsInjected then
    (s, [Effect.logInfo "injectLidoScripts called"])
  else
    let scriptCheckUrl := stripTrailingSlashes s.baseUrl ++ "/code/lido-player.esm.js"
    let noModuleUrl := stripTrailingSlashes s.baseUrl ++ "/code/lido-player.js"
    let probe := doesFileExistSync env scriptCheckUrl
    if probe.1 then
      ({ s with scriptsInjected := true },
        Effect.logInfo "injectLidoScripts called" :: probe.2 ++
          [Effect.injectScript { typeAttr := some "module", nomodule := false, src := scriptCheckUrl },
            Effect.injectScript { typeAttr := none, nomodule := true, src := noModuleUrl },
            Effect.logDebug "Lido scripts injected"])
    else
      let res := fallbackNpmImport env s
      (res.1, Effect.logInfo "injectLidoScripts called" :: probe.2 ++
        (Effect.logWarn "Could not find remote scripts, falling back to npm package" :: res.2))

/-- The try block of fetchXmlData (lines 176-188): synchronous GET of the
resolved URL; a 2xx response stores the body in localXmlData, any other
status logs a warning, and a thrown transport error is caught and logged. -/
def fetchXmlFrom (env : Env) (url : String) (s : ComponentState) : ComponentState × List Effect :=
  match env.get url with
  | Except.ok r =>
    if 200 ≤ r.status ∧ r.status < 300 then
      ({ s with localXmlData := some r.responseText }, [Effect.getRequest url])
    else
      (s, [Effect.getRequest url, Effect.logWarn "Failed to fetch XML"])
  | Except.error _ =>
    (s, [Effect.getRequest url, Effect.logWarn "Error fetching XML"])

/-- Embedding of fetchXmlData (lines 159-189): truthy inline xmlData is stored
verbatim with no fetch; otherwise a falsy xmlPath is derived from a non-empty
baseUrl (mutating the xmlPath prop and setting xmlBaseUrl) or the run ends,
and finally the resolved URL is fetched. -/
def fetchXmlData (env : Env) (s : ComponentState) : ComponentState × List Effect :=
  if jsTruthy s.xmlData then
    ({ s with localXmlData := s.xmlData }, [])
  else if jsTruthy s.xmlPath then
    fetchXmlFrom env (s.xmlPath.getD "") s
  else if s.baseUrl = "" then
    (s, [])
  else
    fetchXmlFrom env (s.baseUrl ++ "/index.xml")
      { s with xmlPath := some (s.baseUrl ++ "/index.xml"), xmlBaseUrl := some s.baseUrl }

/-- Embedding of componentWillLoad (lines 76-81): run ScriptResolution, then
ContentResolution, on the same instance. -/
def componentWillLoad (env : Env) (s : ComponentState) : ComponentState × List Effect :=
  let r1 := injectLidoScripts env s
  let r2 := fetchXmlData env r1.1
  (r2.1, r1.2 ++ r2.2)

/-- Embedding of the baseUrl watcher (lines 65-68): a new baseUrl value
re-runs injectLidoScripts. -/
def onBaseUrlChange (env : Env) (newBase : String) (s : ComponentState) :
    ComponentState × List Effect :=
  injectLidoScripts env { s with baseUrl := newBase }

/-- Embedding of the xmlPath watcher (lines 71-74): a new xmlPath value
re-runs fetchXmlData. -/
def onXmlPathChange (env : Env) (newPath : Option String) (s : ComponentState) :
    ComponentState × List Effect :=
  fetchXmlData env { s with xmlPath := newPath }

/-- The attributes render (lines 191-204) passes to the lido-home element. -/
structure LidoHomeProps where
  initialIndexAttr : Int
  canplayAttr : Bool
  heightAttr : String
  xmlDataAttr : Option String
  baseUrlAttr : Option String
deriving DecidableEq

/-- Embedding of render: pass initialIndex, canplay and height through, and
hand localXmlData and xmlBaseUrl to the downstream element. -/
def render (s : ComponentState) : LidoHomeProps :=
  { initialIndexAttr := s.initialIndex, canplayAttr := s.canplay, heightAttr := s.height,
    xmlDataAttr := s.localXmlData, baseUrlAttr := s.xmlBaseUrl }

/-- A freshly constructed component: caller-supplied props, default state
(scriptsInjected false, localXmlData and xmlBaseUrl undefined). -/
def initState (baseUrl : String) (xmlPath xmlData : Option String) (initialIndex : Int)
    (canplay : Bool) (height : String) : ComponentState :=
  { baseUrl := baseUrl, xmlPath := xmlPath, xmlData := xmlData,
    initialIndex := initialIndex, canplay := canplay, height := height,
    scriptsInjected := false, localXmlData := none, xmlBaseUrl := none }

/-- The script tags appended to document.head during a run. -/
def injectedScripts (effs : List Effect) : List ScriptTag :=
  effs.filterMap fun e =>
    match e with
    | Effect.injectScript t => some t
    | _ => none

/-- Whether the dynamic fallback import was started during a run. -/
def callsFallback (effs : List Effect) : Bool :=
  effs.any fun e =>
    match e with
    | Effect.fallbackImportCall => true
    | _ => false

/-- The URLs of GET requests issued during a run. -/
def getRequests (effs : List Effect) : List String :=
  effs.filterMap fun e =>
    match e with
    | Effect.getRequest u => some u
    | _ => none

/-- Whether a dynamic import outcome is a success. -/
def importOk : Except JsError Unit → Bool
  | Except.ok _ => true
  | Except.error _ => false

/-- A transport outcome that the component treats as a failure: a thrown
error, or a response with a status outside 200..299. -/
def httpFailure : Except JsError HttpResponse → Prop
  | Except.ok r => r.status < 200 ∨ 300 ≤ r.status
  | Except.error _ => True

/-- An environment in which every transport call throws and the dynamic
fallback load rejects. -/
def transportsAllFail (env : Env) : Prop :=
  (∀ u, ∃ e, env.head u = Except.error e) ∧
    (∀ u, ∃ e, env.get u = Except.error e) ∧
    (∃ e, env.fallbackImport = Except.error e)

/-- Witness environment: every request succeeds with status 200, GET bodies
are the fixed payload, and the fallback import resolves. -/
def envOkW : Env :=
  { head := fun _ => Except.ok { status := 200, responseText := "" },
    get := fun _ => Except.ok { status := 200, responseText := "<xml/>" },
    fallbackImport := Except.ok () }

/-- Witness environment: every transport call throws and the fallback import
rejects. -/
def envBadW : Env :=
  { head := fun _ => Except.error { msg := "network down" },
    get := fun _ => Except.error { msg := "network down" },
    fallbackImport := Except.error { msg := "module missing" } }

/-- Witness environment: every request responds 404 and the fallback import
resolves. -/
def env404W : Env :=
  { head := fun _ => Except.ok { status := 404, responseText := "" },
    get := fun _ => Except.ok { status := 404, responseText := "" },
    fallbackImport := Except.ok () }

/-- Witness state: inline XML data together with both locations supplied. -/
def sInlineW : ComponentState :=
  initState "https://h/p" (some "https://h/p/a.xml") (some "<a/>") 0 false "75vh"

/-- Witness state: only a base location supplied. -/
def sBaseW : ComponentState :=
  initState "https://h/p" none none 0 false "75vh"

/-- Witness state: a base location with a trailing slash. -/
def sSlashW : ComponentState :=
  initState "https://h/p/" none none 0 false "75vh"

/-! ### Basic lemmas about the probe effects -/

/-- The HEAD probe appends no script tag. -/
theorem injectedScripts_probe (env : Env) (u : String) :
    injectedScripts (doesFileExistSync env u).2 = [] := by
  unfold doesFileExistSync injectedScripts
  cases env.head u <;> simp

/-- The HEAD probe does not start the fallback import. -/
theorem callsFallback_probe (env : Env) (u : String) :
    callsFallback (doesFileExistSync env u).2 = false := by
  unfold doesFileExistSync callsFallback
  cases env.head u <;> simp

/-- injectedScripts distributes over list append. -/
theorem injectedScripts_append (l1 l2 : List Effect) :
    injectedScripts (l1 ++ l2) = injectedScripts l1 ++ injectedScripts l2 := by
  unfold injectedScripts
  exact List.filterMap_append l1 l2 _

/-- callsFallback distributes over list append. -/
theorem callsFallback_append (l1 l2 : List Effect) :
    callsFallback (l1 ++ l2) = (callsFallback l1 || callsFallback l2) := by
  unfold callsFallback
  exact List.any_append

/-- The GET fetch helper only ever writes localXmlData: every other field of
the state survives unchanged. -/
theorem fetchXmlFrom_preserves (env : Env) (u : String) (s : ComponentState) :
    (fetchXmlFrom env u s).1.scriptsInjected = s.scriptsInjected ∧
    (fetchXmlFrom env u s).1.xmlPath = s.xmlPath ∧
    (fetchXmlFrom env u s).1.xmlBaseUrl = s.xmlBaseUrl ∧
    (fetchXmlFrom env u s).1.xmlData = s.xmlData ∧
    (fetchXmlFrom env u s).1.baseUrl = s.baseUrl := by
  unfold fetchXmlFrom
  cases env.get u with
  | ok r =>
    by_cases h : 200 ≤ r.status ∧ r.status < 300
    · simp [h]
    · simp [h]
  | error e => simp

/-- The GET fetch helper always issues exactly one GET request, to the URL it
was given. -/
theorem getRequests_fetchXmlFrom (env : Env) (u : String) (s : ComponentState) :
    getRequests (fetchXmlFrom env u s).2 = [u] := by
  unfold fetchXmlFrom getRequests
  cases env.get u with
  | ok r =>
    by_cases h : 200 ≤ r.status ∧ r.status < 300
    · simp [h]
    · simp [h]
  | error e => simp

/-- The effect trace of the GET fetch helper does not depend on the state it
is given. -/
theorem fetchXmlFrom_effects_const (env : Env) (u : String) (s t : ComponentState) :
    (fetchXmlFrom env u s).2 = (fetchXmlFrom env u t).2 := by
  unfold fetchXmlFrom
  cases env.get u with
  | ok r =>
    by_cases h : 200 ≤ r.status ∧ r.status < 300
    · simp [h]
    · simp [h]
  | error e => simp

/-- The resolved payload computed by the GET fetch helper depends only on the
payload already in the state, not on the other fields. -/
theorem fetchXmlFrom_localXmlData_congr (env : Env) (u : String) (s t : ComponentState)
    (h : s.localXmlData = t.localXmlData) :
    (fetchXmlFrom env u s).1.localXmlData = (fetchXmlFrom env u t).1.localXmlData := by
  unfold fetchXmlFrom
  cases env.get u with
  | ok r =>
    by_cases hst : 200 ≤ r.status ∧ r.status < 300
    · simp [hst]
    · simp [hst, h]
  | error e => simp [h]

/-- ContentResolution never touches scriptsInjected. -/
theorem fetchXmlData_scriptsInjected (env : Env) (s : ComponentState) :
    (fetchXmlData env s).1.scriptsInjected = s.scriptsInjected := by
  unfold fetchXmlData
  cases h1 : jsTruthy s.xmlData
  · cases h2 : jsTruthy s.xmlPath
    · by_cases h3 : s.baseUrl = ""
      · simp [h3]
      · simp [h3, (fetchXmlFrom_preserves env _ _).1]
    · simp [(fetchXmlFrom_preserves env _ _).1]
  · simp

/-- ScriptResolution only ever writes scriptsInjected: every content-related
field of the state survives unchanged. -/
theorem injectLidoScripts_preserves (env : Env) (s : ComponentState) :
    (injectLidoScripts env s).1.xmlPath = s.xmlPath ∧
    (injectLidoScripts env s).1.xmlData = s.xmlData ∧
    (injectLidoScripts env s).1.xmlBaseUrl = s.xmlBaseUrl ∧
    (injectLidoScripts env s).1.localXmlData = s.localXmlData ∧
    (injectLidoScripts env s).1.baseUrl = s.baseUrl := by
  by_cases hb : s.baseUrl = ""
  · cases hf : env.fallbackImport <;> simp [injectLidoScripts, fallbackNpmImport, hb, hf]
  · cases hi : s.scriptsInjected
    · cases hp : (doesFileExistSync env
        (stripTrailingSlashes s.baseUrl ++ "/code/lido-player.esm.js")).1
      · cases hf : env.fallbackImport <;>
          simp [injectLidoScripts, fallbackNpmImport, hb, hi, hp, hf]
      · simp [injectLidoScripts, hb, hi, hp]
    · simp [injectLidoScripts, hb, hi]

/-- Appending a slash never yields the empty string. -/
theorem append_slash_ne_empty (c : String) : c ++ "/" ≠ "" := by
  intro hc
  have hdata : (c ++ "/").data = c.data ++ ['/'] := by cases c; rfl
  rw [hc] at hdata
  simp at hdata

/-- Stripping trailing slashes removes an appended slash entirely. -/
theorem stripTrailingSlashes_append_slash (c : String) :
    stripTrailingSlashes (c ++ "/") = stripTrailingSlashes c := by
  have hdata : (c ++ "/").data = c.data ++ ['/'] := by cases c; rfl
  unfold stripTrailingSlashes
  rw [hdata]
  congr 1
  simp [List.dropWhile_cons]

/-- The HEAD probe records its request URL in the effect trace. -/
theorem headRequest_mem_probe (env : Env) (u : String) :
    Effect.headRequest u ∈ (doesFileExistSync env u).2 := by
  unfold doesFileExistSync
  cases env.head u <;> simp

/-- With a non-empty baseUrl and not-yet-injected scripts, ScriptResolution
always probes the slash-stripped candidate URL. -/
theorem headRequest_mem_inject (env : Env) (s : ComponentState)
    (hb : s.baseUrl ≠ "") (hi : s.scriptsInjected = false) :
    Effect.headRequest (stripTrailingSlashes s.baseUrl ++ "/code/lido-player.esm.js") ∈
      (injectLidoScripts env s).2 := by
  cases hp : (doesFileExistSync env
    (stripTrailingSlashes s.baseUrl ++ "/code/lido-player.esm.js")).1
  · cases hf : env.fallbackImport <;>
      simp [injectLidoScripts, fallbackNpmImport, hb, hi, hp, hf, headRequest_mem_probe]
  · simp [injectLidoScripts, hb, hi, hp, headRequest_mem_probe]

/-- A failing GET (thrown error or non-2xx status) leaves the resolved
payload exactly as it was. -/
theorem fetchXmlFrom_failure_localXmlData (env : Env) (u : String) (t : ComponentState)
    (h : httpFailure (env.get u)) :
    (fetchXmlFrom env u t).1.localXmlData = t.localXmlData := by
  unfold fetchXmlFrom
  cases hg : env.get u with
  | ok r =>
    rw [hg] at h
    unfold httpFailure at h
    have hn : ¬ (200 ≤ r.status ∧ r.status < 300) := by
      rintro ⟨h1, h2⟩
      rcases h with h | h <;> omega
    simp [hn]
  | error e => simp

/-- With all GET requests failing and no truthy inline data, ContentResolution
leaves the resolved payload exactly as it was. -/
theorem fetchXmlData_failure_localXmlData (env : Env) (s : ComponentState)
    (hd : jsTruthy s.xmlData = false) (hfail : ∀ u, httpFailure (env.get u)) :
    (fetchXmlData env s).1.localXmlData = s.localXmlData := by
  cases hp : jsTruthy s.xmlPath
  · by_cases hb : s.baseUrl = ""
    · simp [fetchXmlData, hd, hp, hb]
    · simp only [fetchXmlData, hd, hp, Bool.false_eq_true, if_false, if_neg hb]
      rw [fetchXmlFrom_failure_localXmlData env _ _ (hfail _)]
  · simp only [fetchXmlData, hd, hp, Bool.false_eq_true, if_false, if_true]
    exact fetchXmlFrom_failure_localXmlData env _ _ (hfail _)

/-- With no truthy inline data, a throwing GET transport, and a fetch path
available (explicit or derived), ContentResolution logs the caught error. -/
theorem fetchXmlData_error_logged (env : Env) (s : ComponentState)
    (hd : jsTruthy s.xmlData = false)
    (hg : ∀ u, ∃ e, env.get u = Except.error e)
    (h : jsTruthy s.xmlPath = true ∨ s.baseUrl ≠ "") :
    Effect.logWarn "Error fetching XML" ∈ (fetchXmlData env s).2 := by
  cases hp : jsTruthy s.xmlPath
  · rcases h with h | h
    · rw [hp] at h
      exact absurd h (by simp)
    · obtain ⟨e, he⟩ := hg (s.baseUrl ++ "/index.xml")
      simp [fetchXmlData, hd, hp, h, fetchXmlFrom, he]
  · obtain ⟨e, he⟩ := hg (s.xmlPath.getD "")
    simp [fetchXmlData, hd, hp, fetchXmlFrom, he]

/-- With a throwing HEAD transport and a rejecting fallback import,
ScriptResolution returns with the state it started from. -/
theorem injectLidoScripts_state_id_of_fail (env : Env) (s : ComponentState)
    (hh : ∀ u, ∃ e, env.head u = Except.error e)
    (hf : ∃ e, env.fallbackImport = Except.error e) :
    (injectLidoScripts env s).1 = s := by
  obtain ⟨ef, hfe⟩ := hf
  by_cases hb : s.baseUrl = ""
  · simp [injectLidoScripts, fallbackNpmImport, hb, hfe]
  · cases hi : s.scriptsInjected
    · obtain ⟨eh, hhe⟩ := hh (stripTrailingSlashes s.baseUrl ++ "/code/lido-player.esm.js")
      simp [injectLidoScripts, doesFileExistSync, fallbackNpmImport, hb, hi, hhe, hfe]
    · simp [injectLidoScripts, hb, hi]

/-! ### Claim C1 -/

/-- Claim C1: whenever truthy inline XML data is supplied, fetchXmlData
performs no request at all (the effect trace is empty) regardless of xmlPath
and baseUrl, stores the inline data verbatim in localXmlData, and leaves
every other field, in particular xmlBaseUrl, unchanged. -/
theorem inline_xml_data_bypasses_fetch (env : Env) (s : ComponentState) (d : String)
    (hd : s.xmlData = some d) (hne : d ≠ "") :
    fetchXmlData env s = ({ s with localXmlData := some d }, []) := by
  unfold fetchXmlData
  have ht : jsTruthy s.xmlData = true := by
    simp [jsTruthy, hd, hne]
  rw [ht]
  simp [hd]

/-- Witness for C1 at a concrete configuration that also supplies both
locations. -/
theorem inline_xml_data_bypasses_fetch_witness :
    fetchXmlData envBadW sInlineW = ({ sInlineW with localXmlData := some "<a/>" }, []) :=
  inline_xml_data_bypasses_fetch envBadW sInlineW "<a/>" rfl (by decide)

/-! ### Claim C2 -/

/-- Claim C2: for a non-empty baseUrl in a not-yet-injected state, if the HEAD
probe of the slash-stripped ESM URL answers with a 2xx status, then exactly
two script tags are appended (the module-typed ESM one and the nomodule
legacy one, in that order), scriptsInjected becomes true, and the dynamic
fallback load is never started. -/
theorem remote_probe_success_injects_two_scripts (env : Env) (s : ComponentState)
    (r : HttpResponse) (hb : s.baseUrl ≠ "") (hi : s.scriptsInjected = false)
    (hh : env.head (stripTrailingSlashes s.baseUrl ++ "/code/lido-player.esm.js") = Except.ok r)
    (h2 : 200 ≤ r.status) (h3 : r.status < 300) :
    (injectLidoScripts env s).1.scriptsInjected = true ∧
    injectedScripts (injectLidoScripts env s).2 =
      [{ typeAttr := some "module", nomodule := false, src := stripTrailingSlashes s.baseUrl ++ "/code/lido-player.esm.js" },
        { typeAttr := none, nomodule := true, src := stripTrailingSlashes s.baseUrl ++ "/code/lido-player.js" }] ∧
    callsFallback (injectLidoScripts env s).2 = false := by
  simp only [injectLidoScripts, doesFileExistSync, if_neg hb, hi, hh, Bool.false_eq_true,
    if_false]
  simp [injectedScripts, callsFallback, h2, h3]

/-- Witness for C2: with the all-200 environment and a plain base location,
both scripts are injected, resolution succeeds, and no fallback starts. -/
theorem remote_probe_success_injects_two_scripts_witness :
    (injectLidoScripts envOkW sBaseW).1.scriptsInjected = true ∧
    injectedScripts (injectLidoScripts envOkW sBaseW).2 =
      [{ typeAttr := some "module", nomodule := false, src := "https://h/p/code/lido-player.esm.js" },
        { typeAttr := none, nomodule := true, src := "https://h/p/code/lido-player.js" }] ∧
    callsFallback (injectLidoScripts envOkW sBaseW).2 = false :=
  remote_probe_success_injects_two_scripts envOkW sBaseW
    { status := 200, responseText := "" } (by decide) rfl rfl (by decide) (by decide)

/-! ### Claim C3 -/

/-- Claim C3: for a non-empty baseUrl in a not-yet-injected state, if the HEAD
probe fails (any non-2xx status or a thrown error), then no script tag is
appended, the fallback import is started, and scriptsInjected ends true
exactly when the fallback import (module load plus registration) succeeds. -/
theorem remote_probe_failure_falls_back (env : Env) (s : ComponentState)
    (hb : s.baseUrl ≠ "") (hi : s.scriptsInjected = false)
    (hp : httpFailure (env.head (stripTrailingSlashes s.baseUrl ++ "/code/lido-player.esm.js"))) :
    injectedScripts (injectLidoScripts env s).2 = [] ∧
    callsFallback (injectLidoScripts env s).2 = true ∧
    (injectLidoScripts env s).1.scriptsInjected = importOk env.fallbackImport := by
  cases hf : env.fallbackImport with
  | ok v =>
    cases hh : env.head (stripTrailingSlashes s.baseUrl ++ "/code/lido-player.esm.js") with
    | ok r =>
      rw [hh] at hp
      unfold httpFailure at hp
      have hfalse : (decide (200 ≤ r.status) && decide (r.status < 300)) = false := by
        rcases hp with h | h
        · simp [Nat.not_le.2 h]
        · simp [Nat.not_lt.2 h]
      simp [injectLidoScripts, doesFileExistSync, if_neg hb, hi, hh, hfalse,
        fallbackNpmImport, hf, importOk, injectedScripts, callsFallback]
    | error e =>
      simp [injectLidoScripts, doesFileExistSync, if_neg hb, hi, hh,
        fallbackNpmImport, hf, importOk, injectedScripts, callsFallback]
  | error e0 =>
    cases hh : env.head (stripTrailingSlashes s.baseUrl ++ "/code/lido-player.esm.js") with
    | ok r =>
      rw [hh] at hp
      unfold httpFailure at hp
      have hfalse : (decide (200 ≤ r.status) && decide (r.status < 300)) = false := by
        rcases hp with h | h
        · simp [Nat.not_le.2 h]
        · simp [Nat.not_lt.2 h]
      simp [injectLidoScripts, doesFileExistSync, if_neg hb, hi, hh, hfalse,
        fallbackNpmImport, hf, importOk, injectedScripts, callsFallback]
    | error e =>
      simp [injectLidoScripts, doesFileExistSync, if_neg hb, hi, hh,
        fallbackNpmImport, hf, importOk, injectedScripts, callsFallback]

/-- Witness for C3: with the all-404 environment (whose fallback import
succeeds) and a plain base location, nothing is injected, the fallback is
invoked, and resolution succeeds through it. -/
theorem remote_probe_failure_falls_back_witness :
    injectedScripts (injectLidoScripts env404W sBaseW).2 = [] ∧
    callsFallback (injectLidoScripts env404W sBaseW).2 = true ∧
    (injectLidoScripts env404W sBaseW).1.scriptsInjected = importOk env404W.fallbackImport :=
  remote_probe_failure_falls_back env404W sBaseW (by decide) rfl (Or.inr (by decide))

/-! ### Claim C4 -/

/-- Claim C4: scriptsInjected is monotone — a true value is never reset by a
resolution attempt; a run can turn it true only through a confirmed remote
probe or a successful fallback import; ContentResolution never touches it;
and the fallback sets it exactly when the import succeeds. -/
theorem scripts_ready_monotone (env : Env) (s : ComponentState) :
    (s.scriptsInjected = true → (injectLidoScripts env s).1.scriptsInjected = true) ∧
    ((injectLidoScripts env s).1.scriptsInjected = true →
      s.scriptsInjected = true ∨
        (doesFileExistSync env (stripTrailingSlashes s.baseUrl ++ "/code/lido-player.esm.js")).1 = true ∨
        importOk env.fallbackImport = true) ∧
    (fetchXmlData env s).1.scriptsInjected = s.scriptsInjected ∧
    (fallbackNpmImport env s).1.scriptsInjected = (s.scriptsInjected || importOk env.fallbackImport) := by
  refine ⟨?_, ?_, fetchXmlData_scriptsInjected env s, ?_⟩
  · intro h
    by_cases hb : s.baseUrl = ""
    · cases hf : env.fallbackImport <;>
        simp [injectLidoScripts, fallbackNpmImport, hb, hf, h]
    · simp [injectLidoScripts, hb, h]
  · intro h
    by_cases hb : s.baseUrl = ""
    · cases hf : env.fallbackImport with
      | ok v => exact Or.inr (Or.inr (by simp [importOk, hf]))
      | error e =>
        simp only [injectLidoScripts, fallbackNpmImport, hb, hf, if_true, if_pos] at h
        exact Or.inl h
    · cases hi : s.scriptsInjected
      · cases hp : (doesFileExistSync env
          (stripTrailingSlashes s.baseUrl ++ "/code/lido-player.esm.js")).1
        · cases hf : env.fallbackImport with
          | ok v => exact Or.inr (Or.inr (by simp [importOk, hf]))
          | error e =>
            simp [injectLidoScripts, fallbackNpmImport, hb, hi, hp, hf] at h
        · exact Or.inr (Or.inl rfl)
      · exact Or.inl rfl
  · cases hf : env.fallbackImport <;> simp [fallbackNpmImport, hf, importOk]

/-- Witness for C4: a state that already resolved stays resolved, and a fetch
leaves the flag alone. -/
theorem scripts_ready_monotone_witness :
    (injectLidoScripts envOkW { sBaseW with scriptsInjected := true }).1.scriptsInjected = true ∧
    (fetchXmlData envOkW sBaseW).1.scriptsInjected = sBaseW.scriptsInjected :=
  ⟨(scripts_ready_monotone envOkW { sBaseW with scriptsInjected := true }).1 rfl,
    (scripts_ready_monotone envOkW sBaseW).2.2.1⟩

/-! ### Claim C7 -/

/-- Claim C7: with no truthy inline data, no truthy xmlPath, and baseUrl
https-colon-slash-slash-x/y, ContentResolution derives the fetch location
https-colon-slash-slash-x/y/index.xml, records the baseUrl as the resolved
base, and issues exactly one GET, to the derived location. -/
theorem default_xml_location_derivation (env : Env) (s : ComponentState)
    (hd : jsTruthy s.xmlData = false) (hp : jsTruthy s.xmlPath = false)
    (hb : s.baseUrl = "https://x/y") :
    (fetchXmlData env s).1.xmlPath = some "https://x/y/index.xml" ∧
    (fetchXmlData env s).1.xmlBaseUrl = some "https://x/y" ∧
    getRequests (fetchXmlData env s).2 = ["https://x/y/index.xml"] := by
  have hb' : ¬ s.baseUrl = "" := by simp [hb]
  simp only [fetchXmlData, hd, hp, Bool.false_eq_true, if_false, if_neg hb']
  refine ⟨?_, ?_, ?_⟩
  · rw [(fetchXmlFrom_preserves env _ _).2.1]
    simp [hb]
  · rw [(fetchXmlFrom_preserves env _ _).2.2.1]
    simp [hb]
  · rw [getRequests_fetchXmlFrom env _ _]
    simp [hb]

/-- Witness for C7 at a concrete configuration with a failing transport (the
derivation happens before and independently of the fetch outcome). -/
theorem default_xml_location_derivation_witness :
    (fetchXmlData envBadW (initState "https://x/y" none none 0 false "75vh")).1.xmlPath = some "https://x/y/index.xml" ∧
    (fetchXmlData envBadW (initState "https://x/y" none none 0 false "75vh")).1.xmlBaseUrl = some "https://x/y" ∧
    getRequests (fetchXmlData envBadW (initState "https://x/y" none none 0 false "75vh")).2 = ["https://x/y/index.xml"] :=
  default_xml_location_derivation envBadW (initState "https://x/y" none none 0 false "75vh")
    rfl rfl rfl

/-! ### Claim C8 -/

/-- Claim C8: inline XML data supplied as the empty string is falsy, so
ContentResolution behaves exactly as if no inline data had been supplied: the
run produces the same effect trace and the same resolved payload, location
and base as the run with xmlData erased, and on the default-derivation path
it really fetches instead of storing the empty string. -/
theorem empty_inline_xml_treated_as_absent (env : Env) (s : ComponentState)
    (h : s.xmlData = some "") :
    (fetchXmlData env s).2 = (fetchXmlData env { s with xmlData := none }).2 ∧
    (fetchXmlData env s).1.localXmlData = (fetchXmlData env { s with xmlData := none }).1.localXmlData ∧
    (fetchXmlData env s).1.xmlPath = (fetchXmlData env { s with xmlData := none }).1.xmlPath ∧
    (fetchXmlData env s).1.xmlBaseUrl = (fetchXmlData env { s with xmlData := none }).1.xmlBaseUrl ∧
    (jsTruthy s.xmlPath = false → s.baseUrl ≠ "" →
      getRequests (fetchXmlData env s).2 = [s.baseUrl ++ "/index.xml"]) := by
  have hds : jsTruthy (some "") = false := rfl
  have hdn : jsTruthy (none : Option String) = false := rfl
  cases hp : jsTruthy s.xmlPath with
  | true =>
    simp only [fetchXmlData, h, hds, hdn, hp, Bool.false_eq_true, if_false, if_true]
    refine ⟨fetchXmlFrom_effects_const env _ _ _, fetchXmlFrom_localXmlData_congr env _ _ _ rfl,
      ?_, ?_, ?_⟩
    · rw [(fetchXmlFrom_preserves env _ _).2.1, (fetchXmlFrom_preserves env _ _).2.1]
    · rw [(fetchXmlFrom_preserves env _ _).2.2.1, (fetchXmlFrom_preserves env _ _).2.2.1]
    · intro hcontra
      simp [hp] at hcontra
  | false =>
    by_cases hb : s.baseUrl = ""
    · simp [fetchXmlData, h, hds, hdn, hp, hb]
    · simp only [fetchXmlData, h, hds, hdn, hp, Bool.false_eq_true, if_false, if_neg hb]
      refine ⟨fetchXmlFrom_effects_const env _ _ _, fetchXmlFrom_localXmlData_congr env _ _ _ rfl,
        ?_, ?_, ?_⟩
      · rw [(fetchXmlFrom_preserves env _ _).2.1, (fetchXmlFrom_preserves env _ _).2.1]
      · rw [(fetchXmlFrom_preserves env _ _).2.2.1, (fetchXmlFrom_preserves env _ _).2.2.1]
      · intro _ _
        exact getRequests_fetchXmlFrom env _ _

/-- Witness for C8: empty inline data with only a base location set leads to
a real GET of the derived default location. -/
theorem empty_inline_xml_treated_as_absent_witness :
    getRequests (fetchXmlData envOkW (initState "https://h/p" none (some "") 0 false "75vh")).2 =
      ["https://h/p" ++ "/index.xml"] :=
  (empty_inline_xml_treated_as_absent envOkW
      (initState "https://h/p" none (some "") 0 false "75vh") rfl).2.2.2.2 rfl (by decide)

/-! ### Claim C9 -/

/-- Claim C9: trailing-slash normalization happens only in ScriptResolution.
For a baseUrl that is some c followed by a slash, the HEAD probe targets the
slash-stripped URL, while ContentResolution derives the raw concatenation
with a double slash and records the resolved base with its trailing slash
intact. -/
theorem trailing_slash_normalized_only_for_scripts (env : Env) (c : String)
    (s : ComponentState) (hb : s.baseUrl = c ++ "/") (hi : s.scriptsInjected = false)
    (hd : jsTruthy s.xmlData = false) (hp : jsTruthy s.xmlPath = false) :
    stripTrailingSlashes s.baseUrl = stripTrailingSlashes c ∧
    Effect.headRequest (stripTrailingSlashes c ++ "/code/lido-player.esm.js") ∈
      (injectLidoScripts env s).2 ∧
    (fetchXmlData env s).1.xmlPath = some (c ++ "//index.xml") ∧
    (fetchXmlData env s).1.xmlBaseUrl = some (c ++ "/") := by
  have hne : s.baseUrl ≠ "" := by rw [hb]; exact append_slash_ne_empty c
  have hstr : stripTrailingSlashes s.baseUrl = stripTrailingSlashes c := by
    rw [hb]; exact stripTrailingSlashes_append_slash c
  refine ⟨hstr, ?_, ?_, ?_⟩
  · have hmem := headRequest_mem_inject env s hne hi
    rwa [hstr] at hmem
  · simp only [fetchXmlData, hd, hp, Bool.false_eq_true, if_false, if_neg hne]
    rw [(fetchXmlFrom_preserves env _ _).2.1]
    simp only [hb]
    rw [String.append_assoc]
    exact congrArg some (congrArg (c ++ ·) (by decide))
  · simp only [fetchXmlData, hd, hp, Bool.false_eq_true, if_false, if_neg hne]
    rw [(fetchXmlFrom_preserves env _ _).2.2.1]
    simp [hb]

/-- Witness for C9 at the trailing-slash base location. -/
theorem trailing_slash_normalized_only_for_scripts_witness :
    stripTrailingSlashes sSlashW.baseUrl = stripTrailingSlashes "https://h/p" ∧
    (fetchXmlData envOkW sSlashW).1.xmlPath = some ("https://h/p" ++ "//index.xml") ∧
    (fetchXmlData envOkW sSlashW).1.xmlBaseUrl = some ("https://h/p" ++ "/") :=
  ⟨(trailing_slash_normalized_only_for_scripts envOkW "https://h/p" sSlashW
      (by decide) rfl rfl rfl).1,
    (trailing_slash_normalized_only_for_scripts envOkW "https://h/p" sSlashW
      (by decide) rfl rfl rfl).2.2.1,
    (trailing_slash_normalized_only_for_scripts envOkW "https://h/p" sSlashW
      (by decide) rfl rfl rfl).2.2.2⟩

/-! ### Claim C10 -/

/-- Claim C10: whenever the default-derivation path is not taken — a truthy
explicit xmlPath or truthy inline data is present — a whole
componentWillLoad run leaves xmlBaseUrl undefined and the rendered lido-home
element gets an unset base-url attribute. -/
theorem resolved_base_unset_off_derived_path (env : Env) (s : ComponentState)
    (h0 : s.xmlBaseUrl = none)
    (h : jsTruthy s.xmlData = true ∨ jsTruthy s.xmlPath = true) :
    (componentWillLoad env s).1.xmlBaseUrl = none ∧
    (render (componentWillLoad env s).1).baseUrlAttr = none := by
  have hbase : (componentWillLoad env s).1 = (fetchXmlData env (injectLidoScripts env s).1).1 := rfl
  have hpres := injectLidoScripts_preserves env s
  have hd1 : jsTruthy (injectLidoScripts env s).1.xmlData = true ∨
      jsTruthy (injectLidoScripts env s).1.xmlPath = true := by
    rw [hpres.2.1, hpres.1]
    exact h
  have hfix : (fetchXmlData env (injectLidoScripts env s).1).1.xmlBaseUrl =
      (injectLidoScripts env s).1.xmlBaseUrl := by
    cases hd : jsTruthy (injectLidoScripts env s).1.xmlData
    · have hpth : jsTruthy (injectLidoScripts env s).1.xmlPath = true := by
        rcases hd1 with h1 | h1
        · rw [hd] at h1; exact absurd h1 (by simp)
        · exact h1
      simp only [fetchXmlData, hd, hpth, Bool.false_eq_true, if_false, if_true]
      exact (fetchXmlFrom_preserves env _ _).2.2.1
    · simp [fetchXmlData, hd]
  constructor
  · rw [hbase, hfix, hpres.2.2.1, h0]
  · show (fetchXmlData env (injectLidoScripts env s).1).1.xmlBaseUrl = none
    rw [hfix, hpres.2.2.1, h0]

/-- Witness for C10: inline XML data plus an explicit location leave the
rendered base-url unset even though a base location was supplied. -/
theorem resolved_base_unset_off_derived_path_witness :
    (componentWillLoad envOkW sInlineW).1.xmlBaseUrl = none ∧
    (render (componentWillLoad envOkW sInlineW).1).baseUrlAttr = none :=
  resolved_base_unset_off_derived_path envOkW sInlineW rfl (Or.inl (by decide))

/-! ### Claim C5 -/

/-- Counterexample to claim C5 as stated: a first ContentResolution run on a
working transport resolves the payload; a re-trigger through the xmlPath
watcher on a now-failing transport fails its fetch, yet the resolved payload
is the value left over from the earlier successful run, not undefined. -/
theorem resolution_state_recomputed_counterexample :
    (onXmlPathChange envBadW (some "https://h2/a.xml")
        (fetchXmlData envOkW (initState "https://h" none none 0 false "75vh")).1).1.localXmlData
      = some "<xml/>" := by
  decide

/-- Claim C5 as amended: ResolutionState is retained, not recomputed, across
reruns — with no truthy inline data and every GET failing, a rerun keeps the
previously resolved payload unchanged, and the location derived from baseUrl
persists in the mutated xmlPath prop. -/
theorem failed_fetch_retains_previous_state (env : Env) (s : ComponentState)
    (hd : jsTruthy s.xmlData = false) (hfail : ∀ u, httpFailure (env.get u)) :
    (fetchXmlData env s).1.localXmlData = s.localXmlData ∧
    (jsTruthy s.xmlPath = false → s.baseUrl ≠ "" →
      (fetchXmlData env s).1.xmlPath = some (s.baseUrl ++ "/index.xml")) := by
  refine ⟨fetchXmlData_failure_localXmlData env s hd hfail, ?_⟩
  intro hp hb
  simp only [fetchXmlData, hd, hp, Bool.false_eq_true, if_false, if_neg hb]
  rw [(fetchXmlFrom_preserves env _ _).2.1]

/-- Witness for the amended C5: rerunning on the state left by a successful
resolution, against a failing transport, keeps the old payload. -/
theorem failed_fetch_retains_previous_state_witness :
    (fetchXmlData envBadW
        (fetchXmlData envOkW (initState "https://h" none none 0 false "75vh")).1).1.localXmlData =
      (fetchXmlData envOkW (initState "https://h" none none 0 false "75vh")).1.localXmlData :=
  (failed_fetch_retains_previous_state envBadW
      (fetchXmlData envOkW (initState "https://h" none none 0 false "75vh")).1
      (by decide) (fun _ => trivial)).1

/-! ### Claim C6 -/

/-- Claim C6: every transport outcome is handled inside the component — with
every HEAD and GET throwing and the fallback import rejecting, a whole
componentWillLoad run still returns normally with the failures logged
(warning for the probe, error for the fallback), never claims success, and
does not corrupt the resolved payload. -/
theorem all_errors_caught_and_logged (env : Env) (s : ComponentState)
    (hfail : transportsAllFail env) :
    (componentWillLoad env s).1.scriptsInjected = s.scriptsInjected ∧
    (jsTruthy s.xmlData = false →
      (componentWillLoad env s).1.localXmlData = s.localXmlData) ∧
    (s.scriptsInjected = false →
      Effect.logError "Failed to load from npm package lido-player" ∈ (componentWillLoad env s).2) ∧
    (s.baseUrl ≠ "" → s.scriptsInjected = false →
      Effect.logWarn "Synchronous HEAD request failed" ∈ (componentWillLoad env s).2) ∧
    (jsTruthy s.xmlData = false → (jsTruthy s.xmlPath = true ∨ s.baseUrl ≠ "") →
      Effect.logWarn "Error fetching XML" ∈ (componentWillLoad env s).2) := by
  obtain ⟨hh, hg, hf⟩ := hfail
  have hid : (injectLidoScripts env s).1 = s := injectLidoScripts_state_id_of_fail env s hh hf
  have hgf : ∀ u, httpFailure (env.get u) := by
    intro u
    obtain ⟨e, he⟩ := hg u
    rw [he]
    trivial
  have hbase : (componentWillLoad env s).1 = (fetchXmlData env (injectLidoScripts env s).1).1 := rfl
  have htrace : (componentWillLoad env s).2 =
      (injectLidoScripts env s).2 ++ (fetchXmlData env (injectLidoScripts env s).1).2 := rfl
  obtain ⟨ef, hfe⟩ := hf
  refine ⟨?_, ?_, ?_, ?_, ?_⟩
  · rw [hbase, hid, fetchXmlData_scriptsInjected]
  · intro hd
    rw [hbase, hid, fetchXmlData_failure_localXmlData env s hd hgf]
  · intro hi
    rw [htrace]
    refine List.mem_append_left _ ?_
    by_cases hb : s.baseUrl = ""
    · simp [injectLidoScripts, fallbackNpmImport, hb, hfe]
    · obtain ⟨eh, hhe⟩ := hh (stripTrailingSlashes s.baseUrl ++ "/code/lido-player.esm.js")
      simp [injectLidoScripts, doesFileExistSync, fallbackNpmImport, hb, hi, hhe, hfe]
  · intro hb hi
    rw [htrace]
    refine List.mem_append_left _ ?_
    obtain ⟨eh, hhe⟩ := hh (stripTrailingSlashes s.baseUrl ++ "/code/lido-player.esm.js")
    simp [injectLidoScripts, doesFileExistSync, fallbackNpmImport, hb, hi, hhe, hfe]
  · intro hd hor
    rw [htrace]
    refine List.mem_append_right _ ?_
    rw [hid]
    exact fetchXmlData_error_logged env s hd hg hor

/-- Witness for C6: the all-failing environment on a fresh base-located
component — no success is signalled and both failures are logged. -/
theorem all_errors_caught_and_logged_witness :
    (componentWillLoad envBadW sBaseW).1.scriptsInjected = sBaseW.scriptsInjected ∧
    Effect.logError "Failed to load from npm package lido-player" ∈ (componentWillLoad envBadW sBaseW).2 ∧
    Effect.logWarn "Synchronous HEAD request failed" ∈ (componentWillLoad envBadW sBaseW).2 :=
  ⟨(all_errors_caught_and_logged envBadW sBaseW
      ⟨fun u => ⟨{ msg := "network down" }, rfl⟩, fun u => ⟨{ msg := "network down" }, rfl⟩,
        ⟨{ msg := "module missing" }, rfl⟩⟩).1,
    (all_errors_caught_and_logged envBadW sBaseW
      ⟨fun u => ⟨{ msg := "network down" }, rfl⟩, fun u => ⟨{ msg := "network down" }, rfl⟩,
        ⟨{ msg := "module missing" }, rfl⟩⟩).2.2.1 rfl,
    (all_errors_caught_and_logged envBadW sBaseW
      ⟨fun u => ⟨{ msg := "network down" }, rfl⟩, fun u => ⟨{ msg := "network down" }, rfl⟩,
        ⟨{ msg := "module missing" }, rfl⟩⟩).2.2.2.1 (by decide) rfl⟩

end LidoStandalone
